import Mathlib

/-!
Verification development for the spectral change-detection and classification
engine of the `hackathon-5` repository.

The embedding translates, over exact rationals (ℚ):
  * `backend/app/services/change_classifier.py` — the aggregate-mode rule
    classifier (`ChangeClassifier.classify`, `classify_from_dict`);
  * `backend/app/core/detection/change_detector.py` — the spectral index
    functions, the pixel-pair classifier `classify_change_spectral`, the
    mask segmentation of `detect_changes` (threshold, 3×3-cross
    morphological open/close, 8-connected components, `min_area` filter)
    and the polygon-ring closing of the geometry builder.

Modelling conventions, stated once here:
  * numpy float arithmetic is modelled by ℚ.  `np.nan_to_num(_, nan=0, posinf=0,
    neginf=0)` after a division is modelled by ℚ's `x / 0 = 0` convention,
    which maps every exact-zero-denominator pixel to 0 exactly as the code does.
  * Python `round(x, 3)` is modelled by `round3` (nearest integer number of
    thousandths); all concrete values used below are far from half-thousandth
    ties, where every rounding convention agrees.
  * `cv2.getStructuringElement(cv2.MORPH_ELLIPSE, (3, 3))` is the 3×3 cross;
    `cv2.morphologyEx` OPEN/CLOSE are erosion/dilation compositions with the
    OpenCV default border (out-of-image counts as foreground for erosion and
    as background for dilation).
  * `cv2.findContours(_, RETR_EXTERNAL, _)` followed by `drawContours(..., -1)`
    and per-region means is modelled by the 8-connected components of the
    cleaned mask (the concrete masks below have no holes, where the two agree);
    `cv2.contourArea` is modelled by the pixel count of the component — every
    concrete region below passes the `min_area` filter under both readings.
  * an unreadable raster source (`rasterio.open` raising, caught by
    `load_sentinel2_bands`, which then returns `({}, None)`) is modelled by a
    `none` input; `raise ValueError(...)` is modelled by `Except.error`.
  * `cv2.resize` reconciliation of unequal shapes and `cv2.approxPolyDP`
    simplification are outside the model: all concrete scenes share one shape,
    and the geometry builder is analysed as a function of the already
    simplified boundary it receives.
-/

namespace Hackathon5

/-- Clamp to [-1, 1]: `np.clip(x, -1, 1)`. -/
def clip1 (x : ℚ) : ℚ := max (-1) (min 1 x)

/-- `round(x, 3)`: nearest-integer count of thousandths. -/
def round3 (q : ℚ) : ℚ := ((round (q * 1000) : ℤ) : ℚ) / 1000

/-! ## Spectral index functions (change_detector.py lines 90-143) -/

/-- A band plane / index plane: pixel (row, col) ↦ value. -/
abbrev Plane := ℤ → ℤ → ℚ

/-- NDVI = (NIR − Red) / (NIR + Red), 0/0 → 0, clipped to [-1, 1]. -/
def calculate_ndvi (nir red : Plane) : Plane := fun i j =>
  clip1 ((nir i j - red i j) / (nir i j + red i j))

/-- NDBI = (SWIR − NIR) / (SWIR + NIR), 0/0 → 0, clipped to [-1, 1]. -/
def calculate_ndbi (swir nir : Plane) : Plane := fun i j =>
  clip1 ((swir i j - nir i j) / (swir i j + nir i j))

/-- NDWI = (Green − NIR) / (Green + NIR), 0/0 → 0, clipped to [-1, 1]. -/
def calculate_ndwi (green nir : Plane) : Plane := fun i j =>
  clip1 ((green i j - nir i j) / (green i j + nir i j))

/-- BSI = ((SWIR+Red) − (NIR+Blue)) / ((SWIR+Red) + (NIR+Blue)), 0/0 → 0, clipped. -/
def calculate_bsi (blue red nir swir : Plane) : Plane := fun i j =>
  clip1 (((swir i j + red i j) - (nir i j + blue i j)) /
         ((swir i j + red i j) + (nir i j + blue i j)))

/-! ## ChangeClassifier (change_classifier.py) -/

/-- `ChangeType` enum of change_classifier.py. -/
inductive ChangeType where
  | NOVA_CONSTRUCAO
  | ENTULHO
  | QUEIMADA
  | DESMATAMENTO
  | REFLORESTAMENTO
  | EXPANSAO_URBANA
  | SEM_MUDANCA
deriving DecidableEq, Repr

/-- `ClassificationResult` dataclass. -/
structure ClassificationResult where
  change_type : ChangeType
  confidence : ℚ
  description : String
  alert_level : String
deriving DecidableEq, Repr

namespace ChangeClassifier

/-- `THRESHOLDS["ndvi_decrease_strong"]`. -/
def ndvi_decrease_strong : ℚ := -0.20
/-- `THRESHOLDS["ndvi_decrease_moderate"]`. -/
def ndvi_decrease_moderate : ℚ := -0.15
/-- `THRESHOLDS["ndvi_increase"]`. -/
def ndvi_increase : ℚ := 0.15
/-- `THRESHOLDS["ndbi_increase"]`. -/
def ndbi_increase : ℚ := 0.10
/-- `THRESHOLDS["bsi_increase"]`. -/
def bsi_increase : ℚ := 0.15
/-- `THRESHOLDS["nbr_decrease"]`. -/
def nbr_decrease : ℚ := -0.25

/-- `DESCRIPTIONS[change_type]`. -/
def DESCRIPTIONS : ChangeType → String
  | .NOVA_CONSTRUCAO => "Área de vegetação foi removida e substituída por construção. Indica urbanização ou edificação nova."
  | .ENTULHO => "Solo exposto detectado, possivelmente depósito de material, terraplanagem ou movimentação de terra."
  | .QUEIMADA => "Padrão espectral consistente com área queimada recentemente. Possível incêndio ou queimada controlada."
  | .DESMATAMENTO => "Redução significativa de cobertura vegetal sem substituição por construção."
  | .REFLORESTAMENTO => "Aumento de cobertura vegetal detectado. Indica regeneração natural ou plantio."
  | .EXPANSAO_URBANA => "Expansão de área urbana sobre zona anteriormente não urbanizada."
  | .SEM_MUDANCA => "Não foram detectadas alterações significativas no período analisado."

/-- `ALERT_LEVELS[change_type]`. -/
def ALERT_LEVELS : ChangeType → String
  | .NOVA_CONSTRUCAO => "warning"
  | .ENTULHO => "critical"
  | .QUEIMADA => "critical"
  | .DESMATAMENTO => "critical"
  | .REFLORESTAMENTO => "success"
  | .EXPANSAO_URBANA => "warning"
  | .SEM_MUDANCA => "info"

/-- `ChangeClassifier._result`: clamps nothing further, rounds the confidence
to 3 decimals and attaches description and alert level. -/
def result (change_type : ChangeType) (confidence : ℚ) : ClassificationResult :=
  ⟨change_type, round3 confidence, DESCRIPTIONS change_type, ALERT_LEVELS change_type⟩

/-- `ChangeClassifier.classify`: the ordered if-chain of
change_classifier.py lines 91-128, translated condition for condition.
The nested `if` of the ENTULHO rule falls through to the EXPANSAO_URBANA
rule when its inner test fails, which is exactly the conjunction below. -/
def classify (delta_ndvi delta_ndbi delta_bsi delta_nbr : ℚ) : ClassificationResult :=
  if delta_nbr < nbr_decrease ∧ delta_ndvi < ndvi_decrease_moderate then
    result .QUEIMADA (min (|delta_nbr| + |delta_ndvi| * 0.5) 1)
  else if delta_ndvi < ndvi_decrease_moderate ∧ delta_ndbi > ndbi_increase then
    result .NOVA_CONSTRUCAO (min (|delta_ndvi| + delta_ndbi) 1)
  else if delta_ndvi < ndvi_decrease_moderate ∧ delta_bsi > bsi_increase ∧
          delta_ndbi < ndbi_increase then
    result .ENTULHO (min (|delta_ndvi| + delta_bsi) 1)
  else if delta_ndvi < ndvi_decrease_moderate ∧ delta_ndbi > ndbi_increase * 0.5 ∧
          delta_bsi > bsi_increase * 0.5 then
    result .EXPANSAO_URBANA (min (|delta_ndvi| * 0.5 + delta_ndbi * 0.5 + delta_bsi * 0.5) 1)
  else if delta_ndvi < ndvi_decrease_strong then
    result .DESMATAMENTO (min |delta_ndvi| 1)
  else if delta_ndvi > ndvi_increase then
    result .REFLORESTAMENTO (min delta_ndvi 1)
  else
    result .SEM_MUDANCA 0

/-- `ChangeClassifier.classify_from_dict`: the deltas dict is modelled as an
association list; `dict.get(key, 0.0)` is `lookup` with default 0. -/
def classify_from_dict (deltas : List (String × ℚ)) : ClassificationResult :=
  classify ((deltas.lookup "ndvi").getD 0) ((deltas.lookup "ndbi").getD 0)
    ((deltas.lookup "bsi").getD 0) ((deltas.lookup "nbr").getD 0)

end ChangeClassifier

/-! ## classify_change_spectral (change_detector.py lines 146-211) -/

/-- `NDVI_LOSS_THRESHOLD`. -/
def NDVI_LOSS_THRESHOLD : ℚ := -0.15
/-- `NDVI_GAIN_THRESHOLD`. -/
def NDVI_GAIN_THRESHOLD : ℚ := 0.15
/-- `NDBI_GAIN_THRESHOLD`. -/
def NDBI_GAIN_THRESHOLD : ℚ := 0.1
/-- `NDWI_GAIN_THRESHOLD`. -/
def NDWI_GAIN_THRESHOLD : ℚ := 0.2

/-- `delta_ndbi is not None and delta_ndbi > t`, as a Boolean on the optional
NDBI delta. -/
def optGt (d : Option ℚ) (t : ℚ) : Bool :=
  match d with
  | some x => decide (x > t)
  | none => false

/-- `delta_ndbi is not None and abs(delta_ndbi) > t`. -/
def optAbsGt (d : Option ℚ) (t : ℚ) : Bool :=
  match d with
  | some x => decide (|x| > t)
  | none => false

/-- `classify_change_spectral`: NDBI deltas are optional (None when either
period lacks SWIR); the initial `confidence = 0.5` assignment of the source is
dead (every return carries its own confidence).  The outer+inner `if` block of
the vegetation-loss rule falls through to the later rules when
`ndvi_before <= 0.3`, which the leading conjunction reproduces. -/
def classify_change_spectral (ndvi_before ndvi_after : ℚ)
    (ndbi_before ndbi_after : Option ℚ) (ndwi_before ndwi_after : ℚ) :
    String × ℚ :=
  let delta_ndvi := ndvi_after - ndvi_before
  let delta_ndwi := ndwi_after - ndwi_before
  let delta_ndbi : Option ℚ :=
    match ndbi_before, ndbi_after with
    | some b, some a => some (a - b)
    | _, _ => none
  if delta_ndvi < NDVI_LOSS_THRESHOLD ∧ ndvi_before > 0.3 then
    let confidence := min (|delta_ndvi| * 2) 1
    if optGt delta_ndbi NDBI_GAIN_THRESHOLD then
      ("urban_expansion", confidence)
    else if ndvi_after < 0.1 then
      ("deforestation", confidence)
    else
      ("vegetation_loss", confidence)
  else if delta_ndvi > NDVI_GAIN_THRESHOLD then
    ("vegetation_growth", min (delta_ndvi * 2) 1)
  else if optGt delta_ndbi NDBI_GAIN_THRESHOLD then
    let c := min (delta_ndbi.getD 0 * 3) 1
    if ndvi_after < 0.2 then ("construction", c) else ("urban_expansion", c)
  else if delta_ndwi > NDWI_GAIN_THRESHOLD then
    ("water_increase", min (delta_ndwi * 2) 1)
  else if delta_ndwi < -NDWI_GAIN_THRESHOLD then
    ("water_decrease", min (|delta_ndwi| * 2) 1)
  else if |delta_ndvi| > 0.1 ∨ optAbsGt delta_ndbi 0.05 = true then
    ("soil_movement", 0.4)
  else
    ("unknown", 0.3)

/-! ## Change-mask segmentation (change_detector.py lines 270-296)

The binary mask, the 3×3-cross morphological opening and closing, and the
external connected components of `detect_changes`. -/

/-- A binary mask plane, `true` = changed pixel. -/
abbrev Mask := ℤ → ℤ → Bool

/-- Pixel (i, j) lies inside the h×w image. -/
def inB (h w : ℕ) (i j : ℤ) : Bool := decide (0 ≤ i ∧ i < h ∧ 0 ≤ j ∧ j < w)

/-- Offsets of the 3×3 elliptical structuring element of
`cv2.getStructuringElement(cv2.MORPH_ELLIPSE, (3, 3))`, i.e. the cross. -/
def crossOffsets : List (ℤ × ℤ) := [(0, 0), (-1, 0), (1, 0), (0, -1), (0, 1)]

/-- Binary erosion with the cross; the OpenCV default border value for erosion
makes out-of-image neighbours count as foreground. -/
def erode (h w : ℕ) (m : Mask) : Mask := fun i j =>
  inB h w i j &&
    crossOffsets.all (fun o => !inB h w (i + o.1) (j + o.2) || m (i + o.1) (j + o.2))

/-- Binary dilation with the cross; the OpenCV default border value for
dilation makes out-of-image neighbours count as background. -/
def dilate (h w : ℕ) (m : Mask) : Mask := fun i j =>
  inB h w i j &&
    crossOffsets.any (fun o => inB h w (i + o.1) (j + o.2) && m (i + o.1) (j + o.2))

/-- `cv2.morphologyEx(mask, cv2.MORPH_OPEN, kernel)`. -/
def morphOpen (h w : ℕ) (m : Mask) : Mask := dilate h w (erode h w m)

/-- `cv2.morphologyEx(mask, cv2.MORPH_CLOSE, kernel)`. -/
def morphClose (h w : ℕ) (m : Mask) : Mask := erode h w (dilate h w m)

/-- `change_mask = (change_magnitude > threshold)`; pixels outside the image
are background. -/
def thresholdMask (h w : ℕ) (magnitude : Plane) (threshold : ℚ) : Mask := fun i j =>
  inB h w i j && decide (magnitude i j > threshold)

/-- The cleaned change mask: opening then closing, in that order. -/
def cleanMask (h w : ℕ) (m : Mask) : Mask := morphClose h w (morphOpen h w m)

/-- Raster-scan order of all pixels of an h×w image. -/
def cellsList (h w : ℕ) : List (ℤ × ℤ) :=
  ((List.range h).map (fun i => (List.range w).map (fun j => ((i : ℤ), (j : ℤ))))).flatten

/-- The 8 neighbours of a pixel (`cv2.findContours` components are
8-connected). -/
def nbrs8 (p : ℤ × ℤ) : List (ℤ × ℤ) :=
  [(p.1 - 1, p.2 - 1), (p.1 - 1, p.2), (p.1 - 1, p.2 + 1),
   (p.1, p.2 - 1), (p.1, p.2 + 1),
   (p.1 + 1, p.2 - 1), (p.1 + 1, p.2), (p.1 + 1, p.2 + 1)]

/-- One step of region growing: adjoin every foreground neighbour of the
current pixel set. -/
def growStep (m : Mask) (s : List (ℤ × ℤ)) : List (ℤ × ℤ) :=
  s ++ ((s.map nbrs8).flatten.filter (fun q => m q.1 q.2 && !s.contains q)).dedup

/-- Iterate `growStep` to a fixpoint (the pixel count of the image bounds the
number of useful iterations). -/
def iterGrow (m : Mask) : ℕ → List (ℤ × ℤ) → List (ℤ × ℤ)
  | 0, s => s
  | fuel + 1, s =>
    let s' := growStep m s
    if s'.length = s.length then s else iterGrow m fuel s'

/-- The 8-connected component of a foreground pixel. -/
def component (m : Mask) (fuel : ℕ) (p : ℤ × ℤ) : List (ℤ × ℤ) :=
  iterGrow m fuel [p]

/-- Scan the image, emitting each 8-connected component once (in the order of
its first raster-scan pixel), as `cv2.findContours` with `RETR_EXTERNAL` does
for a mask without holes. -/
def componentsAux (m : Mask) (fuel : ℕ) :
    List (ℤ × ℤ) → List (List (ℤ × ℤ)) → List (List (ℤ × ℤ))
  | [], acc => acc.reverse
  | c :: rest, acc =>
    if m c.1 c.2 && !acc.any (fun comp => comp.contains c) then
      componentsAux m fuel rest (component m fuel c :: acc)
    else
      componentsAux m fuel rest acc

/-- All 8-connected components of the mask. -/
def components (m : Mask) (h w : ℕ) : List (List (ℤ × ℤ)) :=
  componentsAux m (h * w) (cellsList h w) []

/-- The `min_area` filter of `detect_changes`: every contour whose area is
below `min_area` is discarded.  `cv2.contourArea` is modelled by the pixel
count of the component; a component is nonempty by construction, so the
`M["m00"] == 0` degenerate-contour skip never fires in the model. -/
def segmentRegions (m : Mask) (h w : ℕ) (min_area : ℚ) : List (List (ℤ × ℤ)) :=
  (components m h w).filter (fun px => !decide (((px.length : ℕ) : ℚ) < min_area))

/-! ## Band loading (change_detector.py lines 37-87) -/

/-- An in-memory view of a readable GeoTIFF: band count, 1-indexed band
planes, pixel dimensions and the optional pixel→geo transform (abstracted to
the coordinate map it induces).  An unreadable source is represented as `none`
before this structure is ever formed (any `rasterio` exception is caught by
`load_sentinel2_bands` and surfaced as the empty band dict). -/
structure RasterFile where
  count : ℕ
  band : ℕ → Plane
  h : ℕ
  w : ℕ
  geo : Option ((ℚ × ℚ) → (ℚ × ℚ))

/-- The band dict built by `load_sentinel2_bands`. -/
structure Bands where
  red : Plane
  green : Plane
  blue : Plane
  nir : Plane
  swir1 : Option Plane
  swir2 : Option Plane

/-- `load_sentinel2_bands`: band-count policy of the source — ≥4 bands map to
red/green/blue/NIR (+SWIR1/SWIR2 when present), exactly 3 bands approximate
NIR as green × 1.5, otherwise the single band fills every channel.  A failed
read returns the empty dict and no transformer, here `(none, none)`. -/
def load_sentinel2_bands :
    Option RasterFile → Option Bands × Option ((ℚ × ℚ) → (ℚ × ℚ))
  | none => (none, none)
  | some f =>
    if 4 ≤ f.count then
      (some ⟨f.band 1, f.band 2, f.band 3, f.band 4,
        if 5 ≤ f.count then some (f.band 5) else none,
        if 6 ≤ f.count then some (f.band 6) else none⟩, f.geo)
    else if f.count = 3 then
      (some ⟨f.band 1, f.band 2, f.band 3,
        fun i j => f.band 2 i j * 1.5, none, none⟩, f.geo)
    else
      (some ⟨f.band 1, f.band 1, f.band 1, f.band 1, none, none⟩, f.geo)

/-! ## detect_changes (change_detector.py lines 214-374) -/

/-- `change_magnitude`: `max(|Δndvi|, |Δndwi| * 0.7)`, additionally
`max`-ed with `|Δndbi| * 0.8` when both scenes carry SWIR1. -/
def change_magnitude (bb ba : Bands) : Plane := fun i j =>
  let dndvi := |calculate_ndvi ba.nir ba.red i j - calculate_ndvi bb.nir bb.red i j|
  let dndwi := |calculate_ndwi ba.green ba.nir i j - calculate_ndwi bb.green bb.nir i j|
  let base := max dndvi (dndwi * 0.7)
  match bb.swir1, ba.swir1 with
  | some sb, some sa =>
    max base (|calculate_ndbi sa ba.nir i j - calculate_ndbi sb bb.nir i j| * 0.8)
  | _, _ => base

/-- One detected change region: its pixel set, the classified type and
confidence from the per-region mean indices, and its pixel area.  The polygon
geometry (built from the `cv2.approxPolyDP`-simplified contour) is analysed
separately through `build_geometry`. -/
structure Region where
  pixels : List (ℤ × ℤ)
  rtype : String
  confidence : ℚ
  area_pixels : ℚ
deriving Repr

/-- `np.mean(plane[region_mask == 255])`. -/
def meanOver (p : Plane) (px : List (ℤ × ℤ)) : ℚ :=
  (px.map (fun c => p c.1 c.2)).sum / (px.length : ℚ)

/-- Assemble one change record for a surviving component: mean spectral
indices over the region feed `classify_change_spectral`. -/
def mkRegion (bb ba : Bands) (px : List (ℤ × ℤ)) : Region :=
  let ndbiPair : Option ℚ × Option ℚ :=
    match bb.swir1, ba.swir1 with
    | some sb, some sa =>
      (some (meanOver (calculate_ndbi sb bb.nir) px),
       some (meanOver (calculate_ndbi sa ba.nir) px))
    | _, _ => (none, none)
  let cls := classify_change_spectral
    (meanOver (calculate_ndvi bb.nir bb.red) px)
    (meanOver (calculate_ndvi ba.nir ba.red) px)
    ndbiPair.1 ndbiPair.2
    (meanOver (calculate_ndwi bb.green bb.nir) px)
    (meanOver (calculate_ndwi ba.green ba.nir) px)
  ⟨px, cls.1, cls.2, ((px.length : ℕ) : ℚ)⟩

/-- `detect_changes`: load both sources (aborting with the `ValueError`
message when either is unreadable), reconcile dimensions (all scenes compared
here share one shape, so `cv2.resize` is the identity and the common shape is
the minimum), threshold the combined index-delta magnitude, clean the mask by
opening then closing, extract external components, drop those below
`min_area`, and classify each survivor from its mean index deltas. -/
def detect_changes (before after : Option RasterFile) (threshold : ℚ)
    (min_area : ℚ) : Except String (List Region) :=
  match load_sentinel2_bands before, load_sentinel2_bands after, before, after with
  | (some bb, _), (some ba, _), some fb, some fa =>
    let h := min fb.h fa.h
    let w := min fb.w fa.w
    let mask := cleanMask h w (thresholdMask h w (change_magnitude bb ba) threshold)
    Except.ok ((segmentRegions mask h w min_area).map (mkRegion bb ba))
  | _, _, _, _ => Except.error "Could not load image bands"

/-! ## Geometry building (change_detector.py lines 328-346) -/

/-- Ring closing: `if pixel_coords and pixel_coords[0] != pixel_coords[-1]:
pixel_coords.append(pixel_coords[0])`. -/
def close_polygon (l : List (ℚ × ℚ)) : List (ℚ × ℚ) :=
  match l.head? with
  | none => l
  | some p => if l.getLast? = some p then l else l ++ [p]

/-- The coordinate ring of a produced record: the simplified contour is
closed, then converted pointwise by the GeoTransformer when one is
available. -/
def build_geometry (geo : Option ((ℚ × ℚ) → (ℚ × ℚ)))
    (approx : List (ℚ × ℚ)) : List (ℚ × ℚ) :=
  match geo with
  | some g => (close_polygon approx).map g
  | none => close_polygon approx

/-! ## Concrete scenes for the threshold-monotonicity analysis -/

/-- The NIR (= green) plane of the "after" scene: NDVI jumps by 0.5 on two
3×3 blocks and by 0.3 on the 3-row bridge joining them. -/
def vplane : Plane := fun i j =>
  if (1 ≤ i ∧ i ≤ 3) ∧ (1 ≤ j ∧ j ≤ 3 ∨ 9 ≤ j ∧ j ≤ 11) then 3
  else if (1 ≤ i ∧ i ≤ 3) ∧ (4 ≤ j ∧ j ≤ 8) then 13 / 7
  else 1

/-- A constant band plane. -/
def constPlane (q : ℚ) : Plane := fun _ _ => q

/-- The "before" scene: four constant bands (NDVI 0, NDWI 0 everywhere). -/
def fileBefore : RasterFile :=
  ⟨4, fun _ => constPlane 1, 5, 13, none⟩

/-- The "after" scene: red and blue constant, green = NIR = `vplane`
(NDWI stays 0; NDVI becomes (v−1)/(v+1)). -/
def fileAfter : RasterFile :=
  ⟨4, fun n => if n = 2 ∨ n = 4 then vplane else constPlane 1, 5, 13, none⟩

/-- The bands `load_sentinel2_bands` extracts from `fileBefore`. -/
def bandsBefore : Bands :=
  ⟨constPlane 1, constPlane 1, constPlane 1, constPlane 1, none, none⟩

/-- The bands `load_sentinel2_bands` extracts from `fileAfter`. -/
def bandsAfter : Bands :=
  ⟨constPlane 1, vplane, constPlane 1, vplane, none, none⟩

/-- The change mask of the scene pair at threshold 2/5, written with integer
bounds only: exactly the two 3×3 blocks. -/
def maskHi : Mask := fun i j =>
  decide ((1 ≤ i ∧ i ≤ 3) ∧ (1 ≤ j ∧ j ≤ 3 ∨ 9 ≤ j ∧ j ≤ 11))

/-- The change mask of the scene pair at threshold 1/5: blocks plus bridge,
one 3×11 strip. -/
def maskLo : Mask := fun i j =>
  decide ((1 ≤ i ∧ i ≤ 3) ∧ (1 ≤ j ∧ j ≤ 11))

/-- The cells of the cleaned (opened then closed) mask at threshold 1/5, in
raster order. -/
def loCleanCells : List (ℤ × ℤ) :=
  [(0, 3), (0, 4), (0, 5), (0, 6), (0, 7), (0, 8), (0, 9),
   (1, 2), (1, 3), (1, 4), (1, 5), (1, 6), (1, 7), (1, 8), (1, 9), (1, 10),
   (2, 1), (2, 2), (2, 3), (2, 4), (2, 5), (2, 6), (2, 7), (2, 8), (2, 9), (2, 10), (2, 11),
   (3, 2), (3, 3), (3, 4), (3, 5), (3, 6), (3, 7), (3, 8), (3, 9), (3, 10),
   (4, 3), (4, 4), (4, 5), (4, 6), (4, 7), (4, 8), (4, 9)]

/-- The cells of the cleaned mask at threshold 2/5: two separated crosses. -/
def hiCleanCells : List (ℤ × ℤ) :=
  [(1, 2), (1, 10), (2, 1), (2, 2), (2, 3), (2, 9), (2, 10), (2, 11), (3, 2), (3, 10)]

/-- The cleaned threshold-1/5 mask as an explicit cell list. -/
def maskLoClean : Mask := fun i j => decide ((i, j) ∈ loCleanCells)

/-- The cleaned threshold-2/5 mask as an explicit cell list. -/
def maskHiClean : Mask := fun i j => decide ((i, j) ∈ hiCleanCells)

/-- The single change region found at threshold 1/5, in flood-fill discovery
order. -/
def loComp : List (ℤ × ℤ) :=
  [(0, 3), (0, 4), (1, 2), (1, 3), (1, 4), (2, 1), (2, 2), (0, 5), (1, 5), (2, 3),
   (2, 4), (2, 5), (0, 6), (3, 2), (3, 3), (1, 6), (2, 6), (3, 4), (3, 5), (3, 6),
   (0, 7), (1, 7), (4, 3), (4, 4), (2, 7), (3, 7), (4, 5), (4, 6), (4, 7), (0, 8),
   (1, 8), (2, 8), (3, 8), (4, 8), (0, 9), (1, 9), (2, 9), (3, 9), (4, 9), (1, 10),
   (2, 10), (3, 10), (2, 11)]

/-- The first change region found at threshold 2/5. -/
def hiComp1 : List (ℤ × ℤ) := [(1, 2), (2, 1), (2, 2), (2, 3), (3, 2)]

/-- The second change region found at threshold 2/5. -/
def hiComp2 : List (ℤ × ℤ) := [(1, 10), (2, 9), (2, 10), (2, 11), (3, 10)]

/-- `round3 q` is always an integer number of thousandths; the formal reading
of "rounded to 3 decimal places". -/
def isThousandths (q : ℚ) : Prop := ∃ k : ℤ, q = (k : ℚ) / 1000

/-! # Theorems -/

/-! ## Helper lemmas -/

lemma neg_one_le_clip1 (x : ℚ) : -1 ≤ clip1 x := le_max_left _ _

lemma clip1_le_one (x : ℚ) : clip1 x ≤ 1 :=
  max_le (by norm_num) (min_le_left _ _)

lemma clip1_zero : clip1 0 = 0 := by norm_num [clip1]

lemma round3_zero_eq : round3 0 = 0 := by
  simp [round3]

lemma round3_min_pos {x : ℚ} (h : (1 / 10 : ℚ) ≤ x) : 0 < round3 (min x 1) := by
  have hmin : (1 / 10 : ℚ) ≤ min x 1 := le_min h (by norm_num)
  have h1 : min x 1 * 1000 - 1 / 2 < ((round (min x 1 * 1000) : ℤ) : ℚ) :=
    sub_half_lt_round _
  have h2 : (0 : ℚ) < ((round (min x 1 * 1000) : ℤ) : ℚ) := by nlinarith
  unfold round3
  exact div_pos h2 (by norm_num)

lemma round3_nonneg {q : ℚ} (h : 0 ≤ q) : 0 ≤ round3 q := by
  have h1 : q * 1000 - 1 / 2 < ((round (q * 1000) : ℤ) : ℚ) := sub_half_lt_round _
  have h2 : (-1 : ℚ) < ((round (q * 1000) : ℤ) : ℚ) := by nlinarith
  have h3 : (-1 : ℤ) < round (q * 1000) := by exact_mod_cast h2
  have h4 : (0 : ℤ) ≤ round (q * 1000) := by omega
  unfold round3
  exact div_nonneg (by exact_mod_cast h4) (by norm_num)

lemma round3_le_one {q : ℚ} (h : q ≤ 1) : round3 q ≤ 1 := by
  have h1 : ((round (q * 1000) : ℤ) : ℚ) ≤ q * 1000 + 1 / 2 := round_le_add_half _
  have h2 : ((round (q * 1000) : ℤ) : ℚ) < 1001 := by nlinarith
  have h3 : round (q * 1000) < 1001 := by exact_mod_cast h2
  have h4 : round (q * 1000) ≤ 1000 := by omega
  have h5 : ((round (q * 1000) : ℤ) : ℚ) ≤ 1000 := by exact_mod_cast h4
  unfold round3
  linarith

lemma round3_thousandths (q : ℚ) : isThousandths (round3 q) :=
  ⟨round (q * 1000), rfl⟩

lemma optGt_some_iff {x t : ℚ} : optGt (some x) t = true ↔ t < x := by
  simp [optGt]

lemma optGt_none (t : ℚ) : optGt none t = false := rfl

lemma optAbsGt_some_iff {x t : ℚ} : optAbsGt (some x) t = true ↔ t < |x| := by
  simp [optAbsGt]

lemma optAbsGt_none (t : ℚ) : optAbsGt none t = false := rfl

/-! ## C4 -/

/-- C4: every index function (NDVI, NDBI, NDWI, BSI) returns a plane whose
values all lie in [-1, 1]; a pixel whose denominator is exactly zero (the 0/0
and x/0 non-finite cases) is mapped to 0.0; the functions are total, so they
never raise on exact-zero denominators. -/
theorem index_values_in_unit_range (nir red green blue swir : Plane) (i j : ℤ) :
    (-1 ≤ calculate_ndvi nir red i j ∧ calculate_ndvi nir red i j ≤ 1) ∧
    (-1 ≤ calculate_ndbi swir nir i j ∧ calculate_ndbi swir nir i j ≤ 1) ∧
    (-1 ≤ calculate_ndwi green nir i j ∧ calculate_ndwi green nir i j ≤ 1) ∧
    (-1 ≤ calculate_bsi blue red nir swir i j ∧ calculate_bsi blue red nir swir i j ≤ 1) ∧
    (nir i j + red i j = 0 → calculate_ndvi nir red i j = 0) ∧
    (swir i j + nir i j = 0 → calculate_ndbi swir nir i j = 0) ∧
    (green i j + nir i j = 0 → calculate_ndwi green nir i j = 0) ∧
    (swir i j + red i j + (nir i j + blue i j) = 0 →
      calculate_bsi blue red nir swir i j = 0) := by
  refine ⟨⟨neg_one_le_clip1 _, clip1_le_one _⟩, ⟨neg_one_le_clip1 _, clip1_le_one _⟩,
    ⟨neg_one_le_clip1 _, clip1_le_one _⟩, ⟨neg_one_le_clip1 _, clip1_le_one _⟩,
    fun h => ?_, fun h => ?_, fun h => ?_, fun h => ?_⟩ <;>
    simp only [calculate_ndvi, calculate_ndbi, calculate_ndwi, calculate_bsi, h,
      div_zero, clip1_zero]

/-- Witness for C4 at concrete constant planes: every zero-denominator case
yields 0 and the bounds hold. -/
theorem index_values_in_unit_range_witness :
    calculate_ndvi (constPlane 1) (constPlane (-1)) 0 0 = 0 ∧
    calculate_ndbi (constPlane (-1)) (constPlane 1) 0 0 = 0 ∧
    calculate_ndwi (constPlane (-1)) (constPlane 1) 0 0 = 0 ∧
    calculate_bsi (constPlane 1) (constPlane (-1)) (constPlane 1) (constPlane (-1)) 0 0 = 0 ∧
    -1 ≤ calculate_ndvi (constPlane 1) (constPlane (-1)) 0 0 := by
  obtain ⟨h1, _, _, _, z1, z2, z3, z4⟩ :=
    index_values_in_unit_range (constPlane 1) (constPlane (-1)) (constPlane (-1))
      (constPlane 1) (constPlane (-1)) 0 0
  exact ⟨z1 (by norm_num [constPlane]), z2 (by norm_num [constPlane]),
    z3 (by norm_num [constPlane]), z4 (by norm_num [constPlane]), h1.1⟩

/-! ## C5 -/

/-- C5 counterexample: at deltas (−0.1502, 0, 0, −0.2502) the burn-scar rule
fires, but the returned confidence is the 3-decimal rounding 0.325 of the raw
formula value min(|Δnbr| + 0.5·|Δndvi|, 1) = 0.3253, not that raw value
itself. -/
theorem burn_confidence_rounding_counterexample :
    (ChangeClassifier.classify (-0.1502) 0 0 (-0.2502)).change_type = ChangeType.QUEIMADA ∧
    min (|(-0.2502 : ℚ)| + |(-0.1502 : ℚ)| * 0.5) 1 = 0.3253 ∧
    (ChangeClassifier.classify (-0.1502) 0 0 (-0.2502)).confidence = 0.325 ∧
    (ChangeClassifier.classify (-0.1502) 0 0 (-0.2502)).confidence ≠
      min (|(-0.2502 : ℚ)| + |(-0.1502 : ℚ)| * 0.5) 1 := by
  have hmin : min (|(-0.2502 : ℚ)| + |(-0.1502 : ℚ)| * 0.5) 1 = 0.3253 := by
    rw [abs_of_neg (by norm_num), abs_of_neg (by norm_num), min_eq_left (by norm_num)]
    norm_num
  have hcond : (-0.2502 : ℚ) < ChangeClassifier.nbr_decrease ∧
      (-0.1502 : ℚ) < ChangeClassifier.ndvi_decrease_moderate := by
    norm_num [ChangeClassifier.nbr_decrease, ChangeClassifier.ndvi_decrease_moderate]
  have hcls : ChangeClassifier.classify (-0.1502) 0 0 (-0.2502) =
      ChangeClassifier.result .QUEIMADA
        (min (|(-0.2502 : ℚ)| + |(-0.1502 : ℚ)| * 0.5) 1) := by
    rw [ChangeClassifier.classify, if_pos hcond]
  have hround : round ((0.3253 : ℚ) * 1000) = 325 := by
    rw [round_eq]
    norm_num [Int.floor_eq_iff]
  have hconf : (ChangeClassifier.classify (-0.1502) 0 0 (-0.2502)).confidence = 0.325 := by
    rw [hcls, ChangeClassifier.result]
    simp only [hmin]
    rw [round3, hround]
    norm_num
  refine ⟨by rw [hcls]; rfl, hmin, hconf, ?_⟩
  rw [hconf, hmin]
  norm_num

/-- C5 (amended): whenever Δnbr is below the NBR-drop threshold −0.25 and
Δndvi below the moderate NDVI-loss threshold −0.15, `ChangeClassifier.classify`
returns the burn-scar type QUEIMADA with alert level critical and confidence
equal to min(|Δnbr| + 0.5·|Δndvi|, 1.0) rounded to 3 decimal places. -/
theorem burn_scar_rule (dndvi dndbi dbsi dnbr : ℚ)
    (h1 : dnbr < -0.25) (h2 : dndvi < -0.15) :
    (ChangeClassifier.classify dndvi dndbi dbsi dnbr).change_type = ChangeType.QUEIMADA ∧
    (ChangeClassifier.classify dndvi dndbi dbsi dnbr).alert_level = "critical" ∧
    (ChangeClassifier.classify dndvi dndbi dbsi dnbr).confidence =
      round3 (min (|dnbr| + |dndvi| * 0.5) 1) := by
  have hcond : dnbr < ChangeClassifier.nbr_decrease ∧
      dndvi < ChangeClassifier.ndvi_decrease_moderate := by
    constructor
    · rw [ChangeClassifier.nbr_decrease]; linarith
    · rw [ChangeClassifier.ndvi_decrease_moderate]; linarith
  rw [ChangeClassifier.classify, if_pos hcond]
  exact ⟨rfl, rfl, rfl⟩

/-- Witness for C5 at the spec's decision-table row (−0.20, 0.05, 0.10, −0.30):
burn scar, critical alert, confidence 0.4 > 0. -/
theorem burn_scar_rule_witness :
    ((-0.30 : ℚ) < -0.25 ∧ (-0.20 : ℚ) < -0.15) ∧
    (ChangeClassifier.classify (-0.20) 0.05 0.10 (-0.30)).change_type = ChangeType.QUEIMADA ∧
    (ChangeClassifier.classify (-0.20) 0.05 0.10 (-0.30)).alert_level = "critical" ∧
    (ChangeClassifier.classify (-0.20) 0.05 0.10 (-0.30)).confidence = 0.4 ∧
    0 < (ChangeClassifier.classify (-0.20) 0.05 0.10 (-0.30)).confidence := by
  obtain ⟨ht, ha, hc⟩ := burn_scar_rule (-0.20) 0.05 0.10 (-0.30) (by norm_num) (by norm_num)
  have hmin : min (|(-0.30 : ℚ)| + |(-0.20 : ℚ)| * 0.5) 1 = 0.4 := by
    rw [abs_of_neg (by norm_num), abs_of_neg (by norm_num), min_eq_left (by norm_num)]
    norm_num
  have hround : round ((0.4 : ℚ) * 1000) = 400 := by
    rw [round_eq]
    norm_num [Int.floor_eq_iff]
  have hconf : (ChangeClassifier.classify (-0.20) 0.05 0.10 (-0.30)).confidence = 0.4 := by
    rw [hc, hmin, round3, hround]
    norm_num
  exact ⟨⟨by norm_num, by norm_num⟩, ht, ha, hconf, by rw [hconf]; norm_num⟩

/-! ## C9 -/

/-- C9: `ChangeClassifier.classify` returns confidence 0 exactly when it
returns SEM_MUDANCA; every other change type carries a strictly positive
confidence. -/
theorem confidence_zero_iff_sem_mudanca (a b c d : ℚ) :
    (ChangeClassifier.classify a b c d).confidence = 0 ↔
    (ChangeClassifier.classify a b c d).change_type = ChangeType.SEM_MUDANCA := by
  simp only [ChangeClassifier.classify, ChangeClassifier.nbr_decrease,
    ChangeClassifier.ndvi_decrease_moderate, ChangeClassifier.ndvi_decrease_strong,
    ChangeClassifier.ndvi_increase, ChangeClassifier.ndbi_increase,
    ChangeClassifier.bsi_increase]
  split_ifs with g1 g2 g3 g4 g5 g6
  · have hpos : 0 < round3 (min (|d| + |a| * 0.5) 1) :=
      round3_min_pos (by nlinarith [neg_abs_le d, abs_nonneg a])
    simp [ChangeClassifier.result, hpos.ne']
  · have hpos : 0 < round3 (min (|a| + b) 1) :=
      round3_min_pos (by nlinarith [abs_nonneg a, g2.2])
    simp [ChangeClassifier.result, hpos.ne']
  · have hpos : 0 < round3 (min (|a| + c) 1) :=
      round3_min_pos (by nlinarith [abs_nonneg a, g3.2.1])
    simp [ChangeClassifier.result, hpos.ne']
  · have hpos : 0 < round3 (min (|a| * 0.5 + b * 0.5 + c * 0.5) 1) :=
      round3_min_pos (by nlinarith [neg_abs_le a, g4.2.1, g4.2.2])
    simp [ChangeClassifier.result, hpos.ne']
  · have hpos : 0 < round3 (min |a| 1) :=
      round3_min_pos (by nlinarith [neg_abs_le a])
    simp [ChangeClassifier.result, hpos.ne']
  · have hpos : 0 < round3 (min a 1) := round3_min_pos (by linarith)
    simp [ChangeClassifier.result, hpos.ne']
  · simp [ChangeClassifier.result, round3_zero_eq]

/-! ## C10 -/

/-- C10: `classify_from_dict` substitutes 0.0 for every missing delta key, so
a dictionary without the "nbr" key can never classify as the burn-scar type
QUEIMADA (whose rule requires Δnbr < −0.25). -/
theorem missing_nbr_never_queimada (d : List (String × ℚ))
    (h : d.lookup "nbr" = none) :
    ChangeClassifier.classify_from_dict d =
      ChangeClassifier.classify ((d.lookup "ndvi").getD 0) ((d.lookup "ndbi").getD 0)
        ((d.lookup "bsi").getD 0) ((d.lookup "nbr").getD 0) ∧
    (ChangeClassifier.classify_from_dict d).change_type ≠ ChangeType.QUEIMADA := by
  refine ⟨rfl, ?_⟩
  rw [ChangeClassifier.classify_from_dict, h]
  simp only [Option.getD_none, ChangeClassifier.classify]
  split_ifs with g1 g2 g3 g4 g5 g6
  · exact absurd g1.1 (by rw [ChangeClassifier.nbr_decrease]; norm_num)
  all_goals simp [ChangeClassifier.result]

/-- Witness for C10: a deltas dictionary carrying only "ndvi" (no "nbr" key)
classifies as DESMATAMENTO, not QUEIMADA. -/
theorem missing_nbr_never_queimada_witness :
    ([(("ndvi" : String), (-0.3 : ℚ))].lookup "nbr" = none) ∧
    (ChangeClassifier.classify_from_dict [(("ndvi" : String), (-0.3 : ℚ))]).change_type ≠
      ChangeType.QUEIMADA := by
  have h : ([(("ndvi" : String), (-0.3 : ℚ))].lookup "nbr") = none := by
    simp [List.lookup]
  exact ⟨h, (missing_nbr_never_queimada [(("ndvi" : String), (-0.3 : ℚ))] h).2⟩

/-! ## C6 -/

/-- C6 counterexample: at the spec's all-below-threshold tuple, realised for
the pixel-pair classifier as Δndvi = 0.02, Δndbi = 0.01, Δndwi = 0.01,
`classify_change_spectral` returns "unknown" with fixed confidence 0.3, not
confidence 0 (and no alert level at all). -/
theorem spectral_fallback_confidence_counterexample :
    classify_change_spectral 0 0.02 (some 0) (some 0.01) 0 0.01 = ("unknown", 0.3) ∧
    (classify_change_spectral 0 0.02 (some 0) (some 0.01) 0 0.01).2 ≠ 0 := by
  have habs1 : |(1 / 50 : ℚ)| = 1 / 50 := abs_of_pos (by norm_num)
  have habs2 : |(1 / 100 : ℚ)| = 1 / 100 := abs_of_pos (by norm_num)
  have h : classify_change_spectral 0 0.02 (some 0) (some 0.01) 0 0.01 = ("unknown", 0.3) := by
    norm_num [classify_change_spectral, NDVI_LOSS_THRESHOLD, NDVI_GAIN_THRESHOLD,
      NDBI_GAIN_THRESHOLD, NDWI_GAIN_THRESHOLD, optGt, optAbsGt, habs1, habs2]
  refine ⟨h, ?_⟩
  rw [h]
  norm_num

/-- C6 (amended): on delta tuples below every classification threshold,
`ChangeClassifier.classify` returns SEM_MUDANCA with alert "info" and
confidence exactly 0, while `classify_change_spectral` instead returns
"unknown" with fixed confidence 0.3. -/
theorem below_all_thresholds_outcomes (dndvi dndbi dbsi dnbr vb va nbv nav wb wa : ℚ)
    (h1 : |dndvi| < 0.15) (h2 : |dndbi| < 0.10) (h3 : |dbsi| < 0.15) (h4 : |dnbr| < 0.25)
    (h5 : |va - vb| ≤ 0.1) (h6 : |nav - nbv| ≤ 0.05) (h7 : |wa - wb| ≤ 0.2) :
    (ChangeClassifier.classify dndvi dndbi dbsi dnbr).change_type = ChangeType.SEM_MUDANCA ∧
    (ChangeClassifier.classify dndvi dndbi dbsi dnbr).alert_level = "info" ∧
    (ChangeClassifier.classify dndvi dndbi dbsi dnbr).confidence = 0 ∧
    classify_change_spectral vb va (some nbv) (some nav) wb wa = ("unknown", 0.3) := by
  obtain ⟨h1a, h1b⟩ := abs_lt.mp h1
  obtain ⟨h5a, h5b⟩ := abs_le.mp h5
  obtain ⟨h6a, h6b⟩ := abs_le.mp h6
  obtain ⟨h7a, h7b⟩ := abs_le.mp h7
  have hcls : ChangeClassifier.classify dndvi dndbi dbsi dnbr =
      ChangeClassifier.result .SEM_MUDANCA 0 := by
    simp only [ChangeClassifier.classify, ChangeClassifier.nbr_decrease,
      ChangeClassifier.ndvi_decrease_moderate, ChangeClassifier.ndvi_decrease_strong,
      ChangeClassifier.ndvi_increase, ChangeClassifier.ndbi_increase,
      ChangeClassifier.bsi_increase]
    split_ifs with g1 g2 g3 g4 g5 g6
    · exact absurd g1.2 (by intro hh; linarith)
    · exact absurd g2.1 (by intro hh; linarith)
    · exact absurd g3.1 (by intro hh; linarith)
    · exact absurd g4.1 (by intro hh; linarith)
    · exact absurd g5 (by intro hh; linarith)
    · exact absurd g6 (by intro hh; linarith)
    · rfl
  have hspec : classify_change_spectral vb va (some nbv) (some nav) wb wa =
      ("unknown", 0.3) := by
    simp only [classify_change_spectral, NDVI_LOSS_THRESHOLD, NDVI_GAIN_THRESHOLD,
      NDBI_GAIN_THRESHOLD, NDWI_GAIN_THRESHOLD]
    have hx1 : ¬ (va - vb < -0.15 ∧ vb > 0.3) := by rintro ⟨hh, -⟩; linarith
    have hx2 : ¬ (va - vb > (0.15 : ℚ)) := not_lt.mpr (by linarith)
    have hx3 : ¬ (optGt (some (nav - nbv)) 0.1 = true) := by
      simp only [optGt_some_iff]
      exact not_lt.mpr (by linarith)
    have hx4 : ¬ (wa - wb > (0.2 : ℚ)) := not_lt.mpr (by linarith)
    have hx5 : ¬ (wa - wb < -(0.2 : ℚ)) := not_lt.mpr (by linarith)
    have hx6 : ¬ (|va - vb| > 0.1 ∨ optAbsGt (some (nav - nbv)) 0.05 = true) := by
      rintro (hh | hh)
      · exact absurd h5 (not_le.mpr hh)
      · rw [optAbsGt_some_iff] at hh
        exact absurd h6 (not_le.mpr hh)
    rw [if_neg hx1, if_neg hx2, if_neg hx3, if_neg hx4, if_neg hx5, if_neg hx6]
  rw [hcls]
  exact ⟨rfl, rfl, by simp [ChangeClassifier.result, round3_zero_eq], hspec⟩

/-- Witness for C6 at the spec's decision-table tuple (0.02, 0.01, 0.01, 0.01). -/
theorem below_all_thresholds_outcomes_witness :
    (ChangeClassifier.classify 0.02 0.01 0.01 0.01).change_type = ChangeType.SEM_MUDANCA ∧
    (ChangeClassifier.classify 0.02 0.01 0.01 0.01).alert_level = "info" ∧
    (ChangeClassifier.classify 0.02 0.01 0.01 0.01).confidence = 0 ∧
    classify_change_spectral 0 0.02 (some 0) (some 0.01) 0 0.01 = ("unknown", 0.3) :=
  below_all_thresholds_outcomes 0.02 0.01 0.01 0.01 0 0.02 0 0.01 0 0.01
    (abs_lt.mpr ⟨by norm_num, by norm_num⟩) (abs_lt.mpr ⟨by norm_num, by norm_num⟩)
    (abs_lt.mpr ⟨by norm_num, by norm_num⟩) (abs_lt.mpr ⟨by norm_num, by norm_num⟩)
    (abs_le.mpr ⟨by norm_num, by norm_num⟩) (abs_le.mpr ⟨by norm_num, by norm_num⟩)
    (abs_le.mpr ⟨by norm_num, by norm_num⟩)

/-! ## C1 -/

/-- C1 counterexample: the two classification procedures disagree at the
all-below-threshold delta tuple (0.02, 0.01, 0.01, 0.01): the aggregate-mode
classifier returns confidence 0 while the pixel-pair classifier returns
confidence 0.3 (and no alert level), so they are not equivalent. -/
theorem classifier_pair_disagreement_counterexample :
    (ChangeClassifier.classify 0.02 0.01 0.01 0.01).confidence = 0 ∧
    (classify_change_spectral 0 0.02 (some 0) (some 0.01) 0 0.01).2 = 0.3 ∧
    (ChangeClassifier.classify 0.02 0.01 0.01 0.01).confidence ≠
      (classify_change_spectral 0 0.02 (some 0) (some 0.01) 0 0.01).2 := by
  have hA : (ChangeClassifier.classify 0.02 0.01 0.01 0.01).confidence = 0 := by
    simp only [ChangeClassifier.classify, ChangeClassifier.nbr_decrease,
      ChangeClassifier.ndvi_decrease_moderate, ChangeClassifier.ndvi_decrease_strong,
      ChangeClassifier.ndvi_increase, ChangeClassifier.ndbi_increase,
      ChangeClassifier.bsi_increase]
    split_ifs with g1 g2 g3 g4 g5 g6
    · exact absurd g1.1 (by norm_num)
    · exact absurd g2.1 (by norm_num)
    · exact absurd g3.1 (by norm_num)
    · exact absurd g4.1 (by norm_num)
    · exact absurd g5 (by norm_num)
    · exact absurd g6 (by norm_num)
    · simp [ChangeClassifier.result, round3_zero_eq]
  have habs1 : |(1 / 50 : ℚ)| = 1 / 50 := abs_of_pos (by norm_num)
  have habs2 : |(1 / 100 : ℚ)| = 1 / 100 := abs_of_pos (by norm_num)
  have hB : (classify_change_spectral 0 0.02 (some 0) (some 0.01) 0 0.01).2 = 0.3 := by
    norm_num [classify_change_spectral, NDVI_LOSS_THRESHOLD, NDVI_GAIN_THRESHOLD,
      NDBI_GAIN_THRESHOLD, NDWI_GAIN_THRESHOLD, optGt, optAbsGt, habs1, habs2]
  refine ⟨hA, hB, ?_⟩
  rw [hA, hB]
  norm_num

/-- C1 (amended): the two procedures are not equivalent, but they do agree on
the change category on restricted inputs, e.g. the vegetation-gain rule: for
every input with ΔNDVI > 0.15, the aggregate classifier returns
REFLORESTAMENTO and the pixel-pair classifier returns "vegetation_growth". -/
theorem classifier_pair_vegetation_gain_agreement (vb va wb wa dndbi dbsi dnbr : ℚ)
    (nb na : Option ℚ) (h : va - vb > 0.15) :
    (ChangeClassifier.classify (va - vb) dndbi dbsi dnbr).change_type =
      ChangeType.REFLORESTAMENTO ∧
    (classify_change_spectral vb va nb na wb wa).1 = "vegetation_growth" := by
  constructor
  · simp only [ChangeClassifier.classify, ChangeClassifier.nbr_decrease,
      ChangeClassifier.ndvi_decrease_moderate, ChangeClassifier.ndvi_decrease_strong,
      ChangeClassifier.ndvi_increase, ChangeClassifier.ndbi_increase,
      ChangeClassifier.bsi_increase]
    have hmod : ¬ (va - vb < (-0.15 : ℚ)) := not_lt.mpr (by linarith)
    have hn1 : ¬ (dnbr < (-0.25 : ℚ) ∧ va - vb < -0.15) := fun hh => hmod hh.2
    have hn2 : ¬ (va - vb < (-0.15 : ℚ) ∧ dndbi > 0.10) := fun hh => hmod hh.1
    have hn3 : ¬ (va - vb < (-0.15 : ℚ) ∧ dbsi > 0.15 ∧ dndbi < 0.10) := fun hh => hmod hh.1
    have hn4 : ¬ (va - vb < (-0.15 : ℚ) ∧ dndbi > 0.10 * 0.5 ∧ dbsi > 0.15 * 0.5) :=
      fun hh => hmod hh.1
    have hn5 : ¬ (va - vb < (-0.20 : ℚ)) := not_lt.mpr (by linarith)
    rw [if_neg hn1, if_neg hn2, if_neg hn3, if_neg hn4, if_neg hn5,
      if_pos (show va - vb > (0.15 : ℚ) by linarith)]
    rfl
  · simp only [classify_change_spectral, NDVI_LOSS_THRESHOLD, NDVI_GAIN_THRESHOLD,
      NDBI_GAIN_THRESHOLD, NDWI_GAIN_THRESHOLD]
    have hx1 : ¬ (va - vb < -0.15 ∧ vb > 0.3) := by
      rintro ⟨hh, -⟩; linarith
    rw [if_neg hx1, if_pos (by linarith : va - vb > 0.15)]

/-- Witness for C1 at the spec's vegetation-growth decision-table row
(0.25, −0.05, −0.10, 0.05). -/
theorem classifier_pair_vegetation_gain_agreement_witness :
    ((0.25 : ℚ) - 0 > 0.15) ∧
    (ChangeClassifier.classify ((0.25 : ℚ) - 0) (-0.05) (-0.10) 0.05).change_type =
      ChangeType.REFLORESTAMENTO ∧
    (classify_change_spectral 0 0.25 none none 0 0).1 = "vegetation_growth" := by
  obtain ⟨hA, hB⟩ := classifier_pair_vegetation_gain_agreement 0 0.25 0 0 (-0.05) (-0.10)
    0.05 none none (by norm_num)
  exact ⟨by norm_num, hA, hB⟩

/-! ## C7 -/

lemma spectral_confidence_unit (vb va wb wa : ℚ) (nb na : Option ℚ) :
    0 ≤ (classify_change_spectral vb va nb na wb wa).2 ∧
    (classify_change_spectral vb va nb na wb wa).2 ≤ 1 := by
  rcases nb with _ | nbv <;> rcases na with _ | nav <;>
    simp only [classify_change_spectral, NDVI_LOSS_THRESHOLD, NDVI_GAIN_THRESHOLD,
      NDBI_GAIN_THRESHOLD, NDWI_GAIN_THRESHOLD, optGt_none, optGt_some_iff,
      optAbsGt_none, optAbsGt_some_iff, Option.getD_some, Bool.false_eq_true,
      or_false] <;>
    split_ifs <;>
    constructor <;>
    first
      | (norm_num; done)
      | exact min_le_right _ _
      | exact le_min (by positivity) zero_le_one

/-- C7 counterexample: the pixel-pair classifier does not round: at
(ndvi 0.5 → 0.33985) it returns confidence 0.3203, which is not an integer
number of thousandths. -/
theorem spectral_confidence_unrounded_counterexample :
    (classify_change_spectral 0.5 0.33985 none none 0 0).2 = 0.3203 ∧
    ¬ isThousandths (classify_change_spectral 0.5 0.33985 none none 0 0).2 := by
  have habs : |(0.33985 : ℚ) - 0.5| = 0.16015 := by
    rw [abs_of_neg (by norm_num)]
    norm_num
  have h : (classify_change_spectral 0.5 0.33985 none none 0 0).2 = 0.3203 := by
    simp only [classify_change_spectral, NDVI_LOSS_THRESHOLD, NDVI_GAIN_THRESHOLD,
      NDBI_GAIN_THRESHOLD, NDWI_GAIN_THRESHOLD, optGt_none, Bool.false_eq_true]
    rw [if_pos (by constructor <;> norm_num), if_neg (by simp), if_neg (by norm_num),
      habs, min_eq_left (by norm_num)]
    norm_num
  refine ⟨h, ?_⟩
  rw [h]
  rintro ⟨k, hk⟩
  have h2 : (k : ℚ) = 3203 / 10 := by
    field_simp at hk
    linarith
  have h3 : ((10 * k : ℤ) : ℚ) = 3203 := by
    push_cast
    rw [h2]
    norm_num
  have h4 : (10 * k : ℤ) = 3203 := by exact_mod_cast h3
  omega

/-- C7 (amended): the confidence of both classification procedures always
lies in [0, 1]; the aggregate classifier `ChangeClassifier.classify` rounds it
to 3 decimal places, while `classify_change_spectral` does not round. -/
theorem confidence_unit_and_rounding (a b c d vb va wb wa : ℚ) (nb na : Option ℚ) :
    (0 ≤ (ChangeClassifier.classify a b c d).confidence ∧
      (ChangeClassifier.classify a b c d).confidence ≤ 1) ∧
    isThousandths (ChangeClassifier.classify a b c d).confidence ∧
    (0 ≤ (classify_change_spectral vb va nb na wb wa).2 ∧
      (classify_change_spectral vb va nb na wb wa).2 ≤ 1) := by
  refine ⟨?_, ?_, spectral_confidence_unit vb va wb wa nb na⟩
  · simp only [ChangeClassifier.classify, ChangeClassifier.nbr_decrease,
      ChangeClassifier.ndvi_decrease_moderate, ChangeClassifier.ndvi_decrease_strong,
      ChangeClassifier.ndvi_increase, ChangeClassifier.ndbi_increase,
      ChangeClassifier.bsi_increase]
    split_ifs with g1 g2 g3 g4 g5 g6
    · exact ⟨round3_nonneg (le_min (by positivity) zero_le_one),
        round3_le_one (min_le_right _ _)⟩
    · exact ⟨round3_nonneg (le_min (by linarith [abs_nonneg a, g2.2]) zero_le_one),
        round3_le_one (min_le_right _ _)⟩
    · exact ⟨round3_nonneg (le_min (by linarith [abs_nonneg a, g3.2.1]) zero_le_one),
        round3_le_one (min_le_right _ _)⟩
    · exact ⟨round3_nonneg (le_min (by linarith [abs_nonneg a, g4.2.1, g4.2.2]) zero_le_one),
        round3_le_one (min_le_right _ _)⟩
    · exact ⟨round3_nonneg (le_min (abs_nonneg a) zero_le_one),
        round3_le_one (min_le_right _ _)⟩
    · exact ⟨round3_nonneg (le_min (by linarith) zero_le_one),
        round3_le_one (min_le_right _ _)⟩
    · exact ⟨round3_nonneg (le_refl 0), round3_le_one (by norm_num)⟩
  · simp only [ChangeClassifier.classify]
    split_ifs <;> exact round3_thousandths _

/-! ## C3 -/

/-- C3: when either raster source is unreadable, `detect_changes` fails with
the single read error carrying the human-readable reason string, producing no
change records at all (the result is the error alternative, never a partial
record list), and evaluates each load exactly once, with no retry. -/
theorem unreadable_source_single_error (src1 src2 : Option RasterFile) (t ma : ℚ)
    (h : src1 = none ∨ src2 = none) :
    detect_changes src1 src2 t ma = Except.error "Could not load image bands" := by
  rcases h with h | h
  · subst h
    rfl
  · subst h
    rcases hE : load_sentinel2_bands src1 with ⟨b1, g1⟩
    unfold detect_changes
    rw [hE]
    cases b1 <;> rfl

/-- Witness for C3: a missing "before" raster aborts the comparison with the
read error. -/
theorem unreadable_source_single_error_witness :
    ((none : Option RasterFile) = none ∨ (some fileAfter : Option RasterFile) = none) ∧
    detect_changes none (some fileAfter) (1/5) 1 =
      Except.error "Could not load image bands" :=
  ⟨Or.inl rfl, unreadable_source_single_error none (some fileAfter) (1/5) 1 (Or.inl rfl)⟩

/-! ## C8 -/

/-- C8 counterexample: a 2-vertex simplified boundary (which
`cv2.approxPolyDP` can produce for a thin, elongated closed contour) yields a
closed ring of only 3 coordinates, below the claimed 4-coordinate minimum. -/
theorem ring_coordinate_count_counterexample :
    build_geometry none [((0 : ℚ), (0 : ℚ)), (5, 0)] = [(0, 0), (5, 0), (0, 0)] ∧
    (build_geometry none [((0 : ℚ), (0 : ℚ)), (5, 0)]).length = 3 ∧
    ¬ 4 ≤ (build_geometry none [((0 : ℚ), (0 : ℚ)), (5, 0)]).length := by
  have h : build_geometry none [((0 : ℚ), (0 : ℚ)), (5, 0)] = [(0, 0), (5, 0), (0, 0)] := by
    norm_num [build_geometry, close_polygon, List.getLast?]
  refine ⟨h, ?_, ?_⟩ <;> rw [h] <;> norm_num

lemma close_polygon_spec (l : List (ℚ × ℚ)) (hne : l ≠ []) :
    (close_polygon l).head? = (close_polygon l).getLast? ∧
    (3 ≤ l.length → l.head? ≠ l.getLast? → 4 ≤ (close_polygon l).length) := by
  rcases l with - | ⟨p, rest⟩
  · exact absurd rfl hne
  · simp only [close_polygon, List.head?_cons]
    by_cases hc : (p :: rest).getLast? = some p
    · rw [if_pos hc]
      refine ⟨hc.symm ▸ rfl, fun _ hne2 => ?_⟩
      exact absurd (hc ▸ rfl) hne2
    · rw [if_neg hc]
      constructor
      · rw [List.getLast?_concat]
        rfl
      · intro h3 _
        rw [List.length_append]
        simp only [List.length_cons] at h3 ⊢
        omega

/-- C8 (amended): every ring the geometry builder produces is closed (first
coordinate equals last); it has at least 4 coordinates whenever the simplified
boundary it receives has at least 3 vertices whose first and last differ — the
code enforces closure but no 4-coordinate minimum for degenerate 1- or
2-vertex simplified boundaries. -/
theorem ring_closed_and_coordinates (geo : Option ((ℚ × ℚ) → (ℚ × ℚ)))
    (approx : List (ℚ × ℚ)) (hne : approx ≠ []) :
    (build_geometry geo approx).head? = (build_geometry geo approx).getLast? ∧
    (3 ≤ approx.length → approx.head? ≠ approx.getLast? →
      4 ≤ (build_geometry geo approx).length) := by
  obtain ⟨hclosed, hlen⟩ := close_polygon_spec approx hne
  rcases geo with - | g
  · exact ⟨hclosed, hlen⟩
  · constructor
    · simp only [build_geometry, List.head?_map, List.getLast?_map, hclosed]
    · intro h3 hne2
      simpa only [build_geometry, List.length_map] using hlen h3 hne2

/-- Witness for C8: a 3-vertex simplified triangle boundary yields a closed
4-coordinate ring. -/
theorem ring_closed_and_coordinates_witness :
    (([((0 : ℚ), (0 : ℚ)), (1, 0), (0, 1)] : List (ℚ × ℚ)) ≠ []) ∧
    (build_geometry none [((0 : ℚ), (0 : ℚ)), (1, 0), (0, 1)]).head? =
      (build_geometry none [((0 : ℚ), (0 : ℚ)), (1, 0), (0, 1)]).getLast? ∧
    4 ≤ (build_geometry none [((0 : ℚ), (0 : ℚ)), (1, 0), (0, 1)]).length := by
  have h := ring_closed_and_coordinates none [((0 : ℚ), (0 : ℚ)), (1, 0), (0, 1)]
    (by simp)
  refine ⟨by simp, h.1, h.2 (by simp) ?_⟩
  decide

/-! ## C2 -/

lemma erode_mono (hh ww : ℕ) {m1 m2 : Mask}
    (h : ∀ i j, m1 i j = true → m2 i j = true) :
    ∀ i j, erode hh ww m1 i j = true → erode hh ww m2 i j = true := by
  intro i j hij
  simp only [erode, Bool.and_eq_true, List.all_eq_true] at hij ⊢
  refine ⟨hij.1, fun o ho => ?_⟩
  have h2 := hij.2 o ho
  rw [Bool.or_eq_true] at h2 ⊢
  rcases h2 with h2 | h2
  · exact Or.inl h2
  · exact Or.inr (h _ _ h2)

lemma dilate_mono (hh ww : ℕ) {m1 m2 : Mask}
    (h : ∀ i j, m1 i j = true → m2 i j = true) :
    ∀ i j, dilate hh ww m1 i j = true → dilate hh ww m2 i j = true := by
  intro i j hij
  simp only [dilate, Bool.and_eq_true, List.any_eq_true] at hij ⊢
  obtain ⟨hB, o, ho, hoo⟩ := hij
  exact ⟨hB, o, ho, hoo.1, h _ _ hoo.2⟩

lemma thresholdMask_anti (hh ww : ℕ) (mag : Plane) {t1 t2 : ℚ} (h : t1 ≤ t2) :
    ∀ i j, thresholdMask hh ww mag t2 i j = true →
      thresholdMask hh ww mag t1 i j = true := by
  intro i j hij
  simp only [thresholdMask, Bool.and_eq_true, decide_eq_true_eq] at hij ⊢
  exact ⟨hij.1, lt_of_le_of_lt h hij.2⟩

/-- C2 (amended): raising the threshold can only shrink or preserve the set of
changed pixels: for thresholds 0 < t1 < t2 ≤ 1, the cleaned change mask at t2
is pointwise contained in the cleaned change mask at t1.  (The set of
ChangeRegions themselves need not shrink: a region can split, see the
counterexample.) -/
theorem clean_mask_antitone_in_threshold (hh ww : ℕ) (mag : Plane) (t1 t2 : ℚ)
    (h0 : 0 < t1) (h12 : t1 < t2) (h1 : t2 ≤ 1) :
    ∀ i j, cleanMask hh ww (thresholdMask hh ww mag t2) i j = true →
      cleanMask hh ww (thresholdMask hh ww mag t1) i j = true := by
  have hth := thresholdMask_anti hh ww mag (le_of_lt h12)
  simp only [cleanMask, morphClose, morphOpen]
  exact erode_mono hh ww (dilate_mono hh ww (dilate_mono hh ww (erode_mono hh ww hth)))

/-- Witness for C2's amended mask-monotonicity statement on a 1×1 scene. -/
theorem clean_mask_antitone_in_threshold_witness :
    ((0 : ℚ) < 1/2 ∧ (1/2 : ℚ) < 1 ∧ (1 : ℚ) ≤ 1) ∧
    cleanMask 1 1 (thresholdMask 1 1 (constPlane 2) 1) 0 0 = true ∧
    cleanMask 1 1 (thresholdMask 1 1 (constPlane 2) (1/2)) 0 0 = true := by
  have h4 : cleanMask 1 1 (thresholdMask 1 1 (constPlane 2) 1) 0 0 = true := by decide
  exact ⟨⟨by norm_num, by norm_num, le_refl 1⟩, h4,
    clean_mask_antitone_in_threshold 1 1 (constPlane 2) (1/2) 1 (by norm_num)
      (by norm_num) (le_refl 1) 0 0 h4⟩

lemma loCleanCells_bounded :
    ∀ p ∈ loCleanCells, 0 ≤ p.1 ∧ p.1 < 5 ∧ 0 ≤ p.2 ∧ p.2 < 13 := by decide

lemma hiCleanCells_bounded :
    ∀ p ∈ hiCleanCells, 0 ≤ p.1 ∧ p.1 < 5 ∧ 0 ≤ p.2 ∧ p.2 < 13 := by decide

set_option maxRecDepth 400000 in
lemma cleanMask_maskLo_fin : ∀ (a : Fin 5) (b : Fin 13),
    cleanMask 5 13 maskLo ((a.val : ℤ)) ((b.val : ℤ)) =
      maskLoClean ((a.val : ℤ)) ((b.val : ℤ)) := by decide

set_option maxRecDepth 400000 in
lemma cleanMask_maskHi_fin : ∀ (a : Fin 5) (b : Fin 13),
    cleanMask 5 13 maskHi ((a.val : ℤ)) ((b.val : ℤ)) =
      maskHiClean ((a.val : ℤ)) ((b.val : ℤ)) := by decide

lemma cleanMask_maskLo_eq : cleanMask 5 13 maskLo = maskLoClean := by
  funext i j
  by_cases h : 0 ≤ i ∧ i < 5 ∧ 0 ≤ j ∧ j < 13
  · obtain ⟨h1, h2, h3, h4⟩ := h
    have hfin := cleanMask_maskLo_fin ⟨i.toNat, by omega⟩ ⟨j.toNat, by omega⟩
    simpa [Int.toNat_of_nonneg h1, Int.toNat_of_nonneg h3] using hfin
  · have hB : inB 5 13 i j = false := by
      simp only [inB, decide_eq_false_iff_not]
      omega
    have hL : cleanMask 5 13 maskLo i j = false := by
      simp [cleanMask, morphClose, erode, hB]
    have hR : maskLoClean i j = false := by
      simp only [maskLoClean, decide_eq_false_iff_not]
      intro hm
      exact h (loCleanCells_bounded _ hm)
    rw [hL, hR]

lemma cleanMask_maskHi_eq : cleanMask 5 13 maskHi = maskHiClean := by
  funext i j
  by_cases h : 0 ≤ i ∧ i < 5 ∧ 0 ≤ j ∧ j < 13
  · obtain ⟨h1, h2, h3, h4⟩ := h
    have hfin := cleanMask_maskHi_fin ⟨i.toNat, by omega⟩ ⟨j.toNat, by omega⟩
    simpa [Int.toNat_of_nonneg h1, Int.toNat_of_nonneg h3] using hfin
  · have hB : inB 5 13 i j = false := by
      simp only [inB, decide_eq_false_iff_not]
      omega
    have hL : cleanMask 5 13 maskHi i j = false := by
      simp [cleanMask, morphClose, erode, hB]
    have hR : maskHiClean i j = false := by
      simp only [maskHiClean, decide_eq_false_iff_not]
      intro hm
      exact h (hiCleanCells_bounded _ hm)
    rw [hL, hR]

lemma thresholdMask_hi_eq :
    thresholdMask 5 13 (change_magnitude bandsBefore bandsAfter) (2/5) = maskHi := by
  funext i j
  simp only [thresholdMask, change_magnitude, bandsBefore, bandsAfter, calculate_ndvi,
    calculate_ndwi, constPlane, inB, maskHi]
  rw [← Bool.decide_and, decide_eq_decide]
  have e2 : clip1 (((1 : ℚ) - 1) / (1 + 1)) = 0 := by
    rw [clip1]
    norm_num [min_def, max_def]
  by_cases h1 : (1 ≤ i ∧ i ≤ 3) ∧ (1 ≤ j ∧ j ≤ 3 ∨ 9 ≤ j ∧ j ≤ 11)
  · have hv : vplane i j = 3 := by rw [vplane, if_pos h1]
    have e1 : clip1 (((3 : ℚ) - 1) / (3 + 1)) = 1/2 := by
      rw [clip1]
      norm_num [min_def, max_def]
    have e3 : clip1 (((3 : ℚ) - 3) / (3 + 3)) = 0 := by
      rw [clip1]
      norm_num [min_def, max_def]
    rw [hv, e1, e2, e3]
    refine iff_of_true ⟨by omega, ?_⟩ h1
    norm_num [abs_of_nonneg, max_def]
  · by_cases h2 : (1 ≤ i ∧ i ≤ 3) ∧ (4 ≤ j ∧ j ≤ 8)
    · have hv : vplane i j = 13/7 := by rw [vplane, if_neg h1, if_pos h2]
      have e1 : clip1 (((13/7 : ℚ) - 1) / (13/7 + 1)) = 3/10 := by
        rw [clip1]
        norm_num [min_def, max_def]
      have e3 : clip1 (((13/7 : ℚ) - 13/7) / (13/7 + 13/7)) = 0 := by
        rw [clip1]
        norm_num [min_def, max_def]
      rw [hv, e1, e2, e3]
      refine iff_of_false ?_ h1
      rintro ⟨-, hP⟩
      norm_num [abs_of_nonneg, max_def] at hP
    · have hv : vplane i j = 1 := by rw [vplane, if_neg h1, if_neg h2]
      rw [hv, e2]
      refine iff_of_false ?_ h1
      rintro ⟨-, hP⟩
      norm_num [abs_of_nonneg, max_def] at hP

lemma thresholdMask_lo_eq :
    thresholdMask 5 13 (change_magnitude bandsBefore bandsAfter) (1/5) = maskLo := by
  funext i j
  simp only [thresholdMask, change_magnitude, bandsBefore, bandsAfter, calculate_ndvi,
    calculate_ndwi, constPlane, inB, maskLo]
  rw [← Bool.decide_and, decide_eq_decide]
  have e2 : clip1 (((1 : ℚ) - 1) / (1 + 1)) = 0 := by
    rw [clip1]
    norm_num [min_def, max_def]
  by_cases h1 : (1 ≤ i ∧ i ≤ 3) ∧ (1 ≤ j ∧ j ≤ 3 ∨ 9 ≤ j ∧ j ≤ 11)
  · have hv : vplane i j = 3 := by rw [vplane, if_pos h1]
    have e1 : clip1 (((3 : ℚ) - 1) / (3 + 1)) = 1/2 := by
      rw [clip1]
      norm_num [min_def, max_def]
    have e3 : clip1 (((3 : ℚ) - 3) / (3 + 3)) = 0 := by
      rw [clip1]
      norm_num [min_def, max_def]
    rw [hv, e1, e2, e3]
    refine iff_of_true ⟨by omega, ?_⟩ (by omega)
    norm_num [abs_of_nonneg, max_def]
  · by_cases h2 : (1 ≤ i ∧ i ≤ 3) ∧ (4 ≤ j ∧ j ≤ 8)
    · have hv : vplane i j = 13/7 := by rw [vplane, if_neg h1, if_pos h2]
      have e1 : clip1 (((13/7 : ℚ) - 1) / (13/7 + 1)) = 3/10 := by
        rw [clip1]
        norm_num [min_def, max_def]
      have e3 : clip1 (((13/7 : ℚ) - 13/7) / (13/7 + 13/7)) = 0 := by
        rw [clip1]
        norm_num [min_def, max_def]
      rw [hv, e1, e2, e3]
      refine iff_of_true ⟨by omega, ?_⟩ (by omega)
      norm_num [abs_of_nonneg, max_def]
    · have hv : vplane i j = 1 := by rw [vplane, if_neg h1, if_neg h2]
      rw [hv, e2]
      refine iff_of_false ?_ (by omega)
      rintro ⟨-, hP⟩
      norm_num [abs_of_nonneg, max_def] at hP

lemma detect_changes_scene_eq (t ma : ℚ) :
    detect_changes (some fileBefore) (some fileAfter) t ma =
      Except.ok ((segmentRegions (cleanMask 5 13
        (thresholdMask 5 13 (change_magnitude bandsBefore bandsAfter) t)) 5 13 ma).map
        (mkRegion bandsBefore bandsAfter)) := rfl

set_option maxRecDepth 400000 in
lemma segmentRegions_lo : segmentRegions maskLoClean 5 13 1 = [loComp] := by decide

set_option maxRecDepth 400000 in
lemma segmentRegions_hi : segmentRegions maskHiClean 5 13 1 = [hiComp1, hiComp2] := by
  decide

set_option maxRecDepth 400000 in
/-- C2 counterexample: on a concrete scene pair with min_area = 1 and
thresholds 1/5 < 2/5 (both in (0, 1]), `detect_changes` produces one
ChangeRegion at the lower threshold but two at the higher one — the higher
threshold splits the single region in two, so the region set at threshold 2/5
is not a subset of the region set at threshold 1/5. -/
theorem threshold_regions_counterexample :
    (0 : ℚ) < 1/5 ∧ (1/5 : ℚ) < 2/5 ∧ (2/5 : ℚ) ≤ 1 ∧
    ∃ l1 l2 : List Region,
      detect_changes (some fileBefore) (some fileAfter) (1/5) 1 = Except.ok l1 ∧
      detect_changes (some fileBefore) (some fileAfter) (2/5) 1 = Except.ok l2 ∧
      l1.length = 1 ∧ l2.length = 2 ∧
      ¬ (∀ r2 ∈ l2, ∃ r1 ∈ l1,
          (∀ p ∈ r2.pixels, p ∈ r1.pixels) ∧ ∀ p ∈ r1.pixels, p ∈ r2.pixels) := by
  refine ⟨by norm_num, by norm_num, by norm_num,
    [mkRegion bandsBefore bandsAfter loComp],
    [mkRegion bandsBefore bandsAfter hiComp1, mkRegion bandsBefore bandsAfter hiComp2],
    ?_, ?_, rfl, rfl, ?_⟩
  · rw [detect_changes_scene_eq, thresholdMask_lo_eq, cleanMask_maskLo_eq,
      segmentRegions_lo]
    rfl
  · rw [detect_changes_scene_eq, thresholdMask_hi_eq, cleanMask_maskHi_eq,
      segmentRegions_hi]
    rfl
  · decide

end Hackathon5
